import Mathlib

/-!
Verification of the PolySync path-planner example node (`SearchNode.cpp`).

The node is an event-driven state machine: the messaging framework calls
`okStateEvent` periodically while the node is in its normal operating state,
and `messageEvent` whenever a message arrives on the bus.  We embed the
node's member state as a structure, the two event handlers as pure functions
from state to state (together with a list of observable outputs: published
messages, calls into the planner, and the disconnect action), and whole
executions as folds of an event list over the initial state produced by the
constructor.

The `Planner` / `GridMap` classes live outside the file under verification;
the node only uses them through a narrow interface (goal accessors, index
conversion, one search call, waypoint retrieval), so they are embedded as an
abstract record of functions.
-/

namespace SearchNode

/-- The sentinel for "not yet known": `constexpr int INVALID_LOC = -1;`. -/
def INVALID_LOC : Int := -1

/-- Modelled from the spec: the planner / grid-world interface used by the
node (`Planner.hpp` / `GridMap.hpp` are not part of the sources under
verification).  `getGoalX`/`getGoalY` expose the generated goal,
`getIndexFromState` is the coordinate-to-index conversion,
`searchAStar` runs the search from a start index and returns the waypoint
count, `getNextWaypoint` returns the grid index of the path cell at a
sequence index, and `getStateFromIndex` is the index-to-coordinate
conversion (in the C++ it stores the pair in `checkedMoveIndX` /
`checkedMoveIndY`, which the node reads immediately afterwards). -/
structure Planner where
  goalX : Int
  goalY : Int
  getIndexFromState : Int → Int → Int
  searchAStar : Int → Int
  getNextWaypoint : Int → Int
  getStateFromIndex : Int → Int × Int

/-- The member state of `SearchNode`. -/
structure NodeState where
  searcher : Option Planner
  golLocX : Int
  golLocY : Int
  robLocX : Int
  robLocY : Int
  newRobLocX : Int
  newRobLocY : Int
  numWaypoints : Int
  waypointCounter : Int
  disconnected : Bool

/-- The state established by the constructor `SearchNode::SearchNode`:
every location and counter field is set to `INVALID_LOC`, and no planner
has been constructed yet. -/
def initState : NodeState :=
  { searcher := none
    golLocX := INVALID_LOC
    golLocY := INVALID_LOC
    robLocX := INVALID_LOC
    robLocY := INVALID_LOC
    newRobLocX := INVALID_LOC
    newRobLocY := INVALID_LOC
    numWaypoints := INVALID_LOC
    waypointCounter := INVALID_LOC
    disconnected := false }

/-- Observable actions of one handler invocation: planner construction,
a published goal message (`sendGoalToRobot`, orientation fields), a call of
`getIndexFromState` with the robot location, a call of `searchAStar` with
the resulting index, a call of `getNextWaypoint` with a sequence index, a
published waypoint message (`sendNextWaypoint`, position then orientation
fields), the `disconnectPolySync` action, and a marker for the dereference
of a never-constructed planner (undefined behaviour in the C++, shown
unreachable below). -/
inductive Output where
  | searcherConstructed : Output
  | goalMsg (o0 o1 o2 o3 : Int) : Output
  | getIndexCall (x y : Int) : Output
  | searchCall (robIndex : Int) : Output
  | getNextWaypointCall (i : Int) : Output
  | waypointMsg (p0 p1 p2 o0 o1 o2 o3 : Int) : Output
  | disconnect : Output
  | nullDeref : Output
deriving DecidableEq, Repr

/-- The handler `SearchNode::okStateEvent`.  `fresh` is the `new Planner` that would be
constructed if the goal-generation branch runs.  Returns the successor
state and the outputs emitted, in order. -/
def okStateEvent (fresh : Planner) (s : NodeState) : NodeState × List Output :=
  if s.golLocX = INVALID_LOC ∧ s.golLocY = INVALID_LOC then
    ({ s with searcher := some fresh
              golLocX := fresh.goalX
              golLocY := fresh.goalY },
     [Output.searcherConstructed])
  else if s.robLocX = INVALID_LOC ∨ s.robLocY = INVALID_LOC then
    (s, [Output.goalMsg s.golLocX s.golLocY 0 0])
  else if s.newRobLocX = INVALID_LOC ∧ s.newRobLocY = INVALID_LOC then
    match s.searcher with
    | some pl =>
        ({ s with numWaypoints := pl.searchAStar (pl.getIndexFromState s.robLocX s.robLocY)
                  newRobLocX := s.robLocX
                  newRobLocY := s.robLocY },
         [Output.getIndexCall s.robLocX s.robLocY,
          Output.searchCall (pl.getIndexFromState s.robLocX s.robLocY)])
    | none => (s, [Output.nullDeref])
  else if s.newRobLocX ≠ INVALID_LOC ∨ s.newRobLocY ≠ INVALID_LOC then
    if s.waypointCounter = s.numWaypoints - 2 then
      ({ s with disconnected := true }, [Output.disconnect])
    else
      match s.searcher with
      | some pl =>
          ({ s with newRobLocX := (pl.getStateFromIndex (pl.getNextWaypoint (s.waypointCounter + 1))).1
                    newRobLocY := (pl.getStateFromIndex (pl.getNextWaypoint (s.waypointCounter + 1))).2 },
           [Output.getNextWaypointCall (s.waypointCounter + 1),
            Output.waypointMsg (s.waypointCounter + 1) 0 s.numWaypoints
              (pl.getStateFromIndex (pl.getNextWaypoint (s.waypointCounter + 1))).1
              (pl.getStateFromIndex (pl.getNextWaypoint (s.waypointCounter + 1))).2 0 0])
      | none => (s, [Output.nullDeref])
  else
    (s, [])

/-- The payload of a `ps_platform_motion_msg`: the orientation and position
arrays, as they are read by the node. -/
structure PlatformMotionData where
  orientation0 : Int
  orientation1 : Int
  orientation2 : Int
  orientation3 : Int
  position0 : Int
  position1 : Int
  position2 : Int
deriving DecidableEq, Repr

/-- A bus message: its source GUID and its payload; `other` stands for any
message that is not a `PlatformMotionMessage` (the `getSubclass` cast
fails on it). -/
inductive Payload where
  | platformMotion (pm : PlatformMotionData) : Payload
  | other : Payload
deriving DecidableEq, Repr

structure Message where
  sourceGuid : Nat
  payload : Payload
deriving DecidableEq, Repr

/-- The handler `SearchNode::messageEvent`: drop own messages, then for platform motion
messages whose orientation pair differs from the stored robot location,
record the new location and overwrite the waypoint counter with the
message's `position[0]`. -/
def messageEvent (selfGuid : Nat) (s : NodeState) (m : Message) : NodeState :=
  if m.sourceGuid = selfGuid then s
  else
    match m.payload with
    | Payload.platformMotion pm =>
        if pm.orientation0 ≠ s.robLocX ∨ pm.orientation1 ≠ s.robLocY then
          { s with robLocX := pm.orientation0
                   robLocY := pm.orientation1
                   waypointCounter := pm.position0 }
        else s
    | Payload.other => s

/-- An event delivered to the node by the framework: a periodic ok-state
callback (carrying the planner that `new Planner` would yield) or an
incoming message. -/
inductive Event where
  | okEvt (fresh : Planner) : Event
  | msgEvt (m : Message) : Event

/-- One framework step.  After `disconnectPolySync` no further callbacks
are delivered, so a disconnected state is left unchanged. -/
def step (selfGuid : Nat) (s : NodeState) : Event → NodeState × List Output
  | Event.okEvt p => if s.disconnected then (s, []) else okStateEvent p s
  | Event.msgEvt m =>
      if s.disconnected then (s, []) else (messageEvent selfGuid s m, [])

/-- Run a list of events from a state, accumulating outputs in order. -/
def runFrom (selfGuid : Nat) (s : NodeState) : List Event → NodeState × List Output
  | [] => (s, [])
  | e :: es =>
      ((runFrom selfGuid (step selfGuid s e).1 es).1,
       (step selfGuid s e).2 ++ (runFrom selfGuid (step selfGuid s e).1 es).2)

/-! ### Branch lemmas for `okStateEvent` -/

lemma okState_branch1 (p : Planner) (s : NodeState)
    (h1 : s.golLocX = INVALID_LOC ∧ s.golLocY = INVALID_LOC) :
    okStateEvent p s =
      ({ s with searcher := some p
                golLocX := p.goalX
                golLocY := p.goalY },
       [Output.searcherConstructed]) := by
  unfold okStateEvent
  rw [if_pos h1]

lemma okState_branch2 (p : Planner) (s : NodeState)
    (h1 : ¬(s.golLocX = INVALID_LOC ∧ s.golLocY = INVALID_LOC))
    (h2 : s.robLocX = INVALID_LOC ∨ s.robLocY = INVALID_LOC) :
    okStateEvent p s = (s, [Output.goalMsg s.golLocX s.golLocY 0 0]) := by
  unfold okStateEvent
  rw [if_neg h1, if_pos h2]

lemma okState_branch3 (p pl : Planner) (s : NodeState)
    (h1 : ¬(s.golLocX = INVALID_LOC ∧ s.golLocY = INVALID_LOC))
    (h2 : ¬(s.robLocX = INVALID_LOC ∨ s.robLocY = INVALID_LOC))
    (h3 : s.newRobLocX = INVALID_LOC ∧ s.newRobLocY = INVALID_LOC)
    (hs : s.searcher = some pl) :
    okStateEvent p s =
      ({ s with numWaypoints := pl.searchAStar (pl.getIndexFromState s.robLocX s.robLocY)
                newRobLocX := s.robLocX
                newRobLocY := s.robLocY },
       [Output.getIndexCall s.robLocX s.robLocY,
        Output.searchCall (pl.getIndexFromState s.robLocX s.robLocY)]) := by
  unfold okStateEvent
  rw [if_neg h1, if_neg h2, if_pos h3, hs]

lemma okState_branch4_done (p : Planner) (s : NodeState)
    (h1 : ¬(s.golLocX = INVALID_LOC ∧ s.golLocY = INVALID_LOC))
    (h2 : ¬(s.robLocX = INVALID_LOC ∨ s.robLocY = INVALID_LOC))
    (h3 : ¬(s.newRobLocX = INVALID_LOC ∧ s.newRobLocY = INVALID_LOC))
    (h4 : s.waypointCounter = s.numWaypoints - 2) :
    okStateEvent p s = ({ s with disconnected := true }, [Output.disconnect]) := by
  unfold okStateEvent
  rw [if_neg h1, if_neg h2, if_neg h3, if_pos (by tauto), if_pos h4]

lemma okState_branch4_send (p pl : Planner) (s : NodeState)
    (h1 : ¬(s.golLocX = INVALID_LOC ∧ s.golLocY = INVALID_LOC))
    (h2 : ¬(s.robLocX = INVALID_LOC ∨ s.robLocY = INVALID_LOC))
    (h3 : ¬(s.newRobLocX = INVALID_LOC ∧ s.newRobLocY = INVALID_LOC))
    (h4 : s.waypointCounter ≠ s.numWaypoints - 2)
    (hs : s.searcher = some pl) :
    okStateEvent p s =
      ({ s with newRobLocX := (pl.getStateFromIndex (pl.getNextWaypoint (s.waypointCounter + 1))).1
                newRobLocY := (pl.getStateFromIndex (pl.getNextWaypoint (s.waypointCounter + 1))).2 },
       [Output.getNextWaypointCall (s.waypointCounter + 1),
        Output.waypointMsg (s.waypointCounter + 1) 0 s.numWaypoints
          (pl.getStateFromIndex (pl.getNextWaypoint (s.waypointCounter + 1))).1
          (pl.getStateFromIndex (pl.getNextWaypoint (s.waypointCounter + 1))).2 0 0]) := by
  unfold okStateEvent
  rw [if_neg h1, if_neg h2, if_neg h3, if_pos (by tauto), if_neg h4, hs]

lemma okState_branch3_none (p : Planner) (s : NodeState)
    (h1 : ¬(s.golLocX = INVALID_LOC ∧ s.golLocY = INVALID_LOC))
    (h2 : ¬(s.robLocX = INVALID_LOC ∨ s.robLocY = INVALID_LOC))
    (h3 : s.newRobLocX = INVALID_LOC ∧ s.newRobLocY = INVALID_LOC)
    (hs : s.searcher = none) :
    okStateEvent p s = (s, [Output.nullDeref]) := by
  unfold okStateEvent
  rw [if_neg h1, if_neg h2, if_pos h3, hs]

lemma okState_branch4_none (p : Planner) (s : NodeState)
    (h1 : ¬(s.golLocX = INVALID_LOC ∧ s.golLocY = INVALID_LOC))
    (h2 : ¬(s.robLocX = INVALID_LOC ∨ s.robLocY = INVALID_LOC))
    (h3 : ¬(s.newRobLocX = INVALID_LOC ∧ s.newRobLocY = INVALID_LOC))
    (h4 : s.waypointCounter ≠ s.numWaypoints - 2)
    (hs : s.searcher = none) :
    okStateEvent p s = (s, [Output.nullDeref]) := by
  unfold okStateEvent
  rw [if_neg h1, if_neg h2, if_neg h3, if_pos (by tauto), if_neg h4, hs]

/-! ### Concrete objects used by the witnesses -/

/-- A concrete planner instance on a 5-wide grid: goal (4, 4), a search
that finds a 3-cell path, path cell at sequence index `i` having grid
index `i + 1` and coordinates `(i + 1, 0)`. -/
def cPlanner : Planner :=
  { goalX := 4
    goalY := 4
    getIndexFromState := fun x y => 5 * y + x
    searchAStar := fun _ => 3
    getNextWaypoint := fun i => i + 1
    getStateFromIndex := fun idx => (idx, 0) }

/-- A concrete state about to run the search: goal generated, robot start
location (2, 3) received, search not yet performed. -/
def searchReadyState : NodeState :=
  { searcher := some cPlanner
    golLocX := 4
    golLocY := 4
    robLocX := 2
    robLocY := 3
    newRobLocX := INVALID_LOC
    newRobLocY := INVALID_LOC
    numWaypoints := INVALID_LOC
    waypointCounter := INVALID_LOC
    disconnected := false }

/-- A concrete state in the waypoint-streaming phase, no waypoint sent
yet, with a 3-waypoint path. -/
def streamState : NodeState :=
  { searcher := some cPlanner
    golLocX := 4
    golLocY := 4
    robLocX := 2
    robLocY := 3
    newRobLocX := 2
    newRobLocY := 3
    numWaypoints := 3
    waypointCounter := INVALID_LOC
    disconnected := false }

/-- A concrete state entering the waypoint-streaming phase after a search
that returned waypoint count 1 (start equals goal), the waypoint counter
still holding the constructor's sentinel. -/
def trivialPathState : NodeState :=
  { searcher := some cPlanner
    golLocX := 4
    golLocY := 4
    robLocX := 2
    robLocY := 3
    newRobLocX := 2
    newRobLocY := 3
    numWaypoints := 1
    waypointCounter := INVALID_LOC
    disconnected := false }

/-! ### Claims about single handler invocations -/

/-- Claim C5: the constructor initializes every location and counter field
of the node (golLocX, golLocY, robLocX, robLocY, newRobLocX, newRobLocY,
numWaypoints, waypointCounter) to the sentinel INVALID_LOC = -1. -/
theorem constructor_all_fields_sentinel :
    initState.golLocX = INVALID_LOC ∧ initState.golLocY = INVALID_LOC ∧
    initState.robLocX = INVALID_LOC ∧ initState.robLocY = INVALID_LOC ∧
    initState.newRobLocX = INVALID_LOC ∧ initState.newRobLocY = INVALID_LOC ∧
    initState.numWaypoints = INVALID_LOC ∧ initState.waypointCounter = INVALID_LOC ∧
    INVALID_LOC = -1 :=
  ⟨rfl, rfl, rfl, rfl, rfl, rfl, rfl, rfl, rfl⟩

/-- Claim C8: a message whose source GUID equals the node's own GUID leaves
every field of the node unchanged. -/
theorem messageEvent_own_message_ignored (g : Nat) (s : NodeState) (m : Message)
    (h : m.sourceGuid = g) : messageEvent g s m = s := by
  unfold messageEvent
  rw [if_pos h]

theorem messageEvent_own_message_ignored_witness :
    messageEvent 5 initState { sourceGuid := 5, payload := Payload.other } = initState :=
  messageEvent_own_message_ignored 5 initState
    { sourceGuid := 5, payload := Payload.other } rfl

/-- Claim C9: `messageEvent` modifies the state only when the incoming
platform motion message's orientation pair differs from the stored robot
location; a message repeating the current location changes nothing at all:
the state, in particular the waypoint counter, keeps its previous value and
the message's position[0] acknowledgment is dropped. -/
theorem messageEvent_same_location_ignored (g : Nat) (s : NodeState) :
    (∀ (gsrc : Nat) (pm : PlatformMotionData),
      pm.orientation0 = s.robLocX → pm.orientation1 = s.robLocY →
      messageEvent g s { sourceGuid := gsrc, payload := Payload.platformMotion pm } = s) ∧
    (∀ m : Message, messageEvent g s m ≠ s →
      ∃ pm, m.payload = Payload.platformMotion pm ∧
        (pm.orientation0 ≠ s.robLocX ∨ pm.orientation1 ≠ s.robLocY)) := by
  constructor
  · intro gsrc pm hx hy
    unfold messageEvent
    by_cases hg : gsrc = g
    · rw [if_pos hg]
    · rw [if_neg hg]
      simp only []
      rw [if_neg (by simp [hx, hy])]
  · intro m hne
    by_cases hg : m.sourceGuid = g
    · exact absurd (by unfold messageEvent; rw [if_pos hg]) hne
    · obtain ⟨gsrc, pl⟩ := m
      cases pl with
      | other =>
          exact absurd (by unfold messageEvent; rw [if_neg hg]) hne
      | platformMotion pm =>
          refine ⟨pm, rfl, ?_⟩
          by_contra hng
          push_neg at hng
          apply hne
          unfold messageEvent
          rw [if_neg hg]
          simp only []
          rw [if_neg (by simp [hng.1, hng.2])]

theorem messageEvent_same_location_ignored_witness :
    messageEvent 0 streamState
      { sourceGuid := 1,
        payload := Payload.platformMotion
          { orientation0 := 2, orientation1 := 3, orientation2 := 0, orientation3 := 0,
            position0 := 7, position1 := 0, position2 := 0 } } = streamState :=
  (messageEvent_same_location_ignored 0 streamState).1 1
    { orientation0 := 2, orientation1 := 3, orientation2 := 0, orientation3 := 0,
      position0 := 7, position1 := 0, position2 := 0 } rfl rfl

/-- Claim C3: whenever `okStateEvent` calls `getIndexFromState` on the
stored robot location (and then `searchAStar` on the result), both stored
robot coordinates differ from the sentinel INVALID_LOC: the sentinel is
never passed into coordinate-to-index conversion or into search. -/
theorem sentinel_never_searched (p : Planner) (s : NodeState) (x y : Int)
    (h : Output.getIndexCall x y ∈ (okStateEvent p s).2) :
    x = s.robLocX ∧ y = s.robLocY ∧
    s.robLocX ≠ INVALID_LOC ∧ s.robLocY ≠ INVALID_LOC ∧
    ∃ pl, s.searcher = some pl ∧
      Output.searchCall (pl.getIndexFromState s.robLocX s.robLocY) ∈ (okStateEvent p s).2 := by
  unfold okStateEvent at h ⊢
  split_ifs at h ⊢ with h1 h2 h3 h4 h5
  · simp at h
  · simp at h
  · revert h
    cases hs : s.searcher with
    | none => intro h; simp at h
    | some pl =>
        intro h
        simp only [List.mem_cons, List.not_mem_nil, or_false] at h
        rcases h with h | h
        · obtain ⟨hx, hy⟩ := Output.getIndexCall.inj h
          push_neg at h2
          exact ⟨hx, hy, h2.1, h2.2, pl, rfl, by simp⟩
        · exact absurd h (by simp)
  · simp at h
  · revert h
    cases hs : s.searcher with
    | none => intro h; simp at h
    | some pl => intro h; simp at h
  · simp at h

theorem sentinel_never_searched_witness :
    (2 : Int) = searchReadyState.robLocX ∧ (3 : Int) = searchReadyState.robLocY ∧
    searchReadyState.robLocX ≠ INVALID_LOC ∧ searchReadyState.robLocY ≠ INVALID_LOC ∧
    ∃ pl, searchReadyState.searcher = some pl ∧
      Output.searchCall (pl.getIndexFromState searchReadyState.robLocX searchReadyState.robLocY)
        ∈ (okStateEvent cPlanner searchReadyState).2 :=
  sentinel_never_searched cPlanner searchReadyState 2 3 (by decide)

/-- Claim C7: in the waypoint-streaming branch (goal generated, robot
location known, search done, completion check false), the handler calls
`getNextWaypoint (waypointCounter + 1)` and publishes exactly one waypoint
message whose position fields are (waypointCounter + 1, 0, numWaypoints)
and whose orientation fields are the coordinate pair obtained by converting
the returned index through `getStateFromIndex`, followed by 0, 0. -/
theorem waypoint_message_fields (p pl : Planner) (s : NodeState)
    (h1 : ¬(s.golLocX = INVALID_LOC ∧ s.golLocY = INVALID_LOC))
    (h2 : ¬(s.robLocX = INVALID_LOC ∨ s.robLocY = INVALID_LOC))
    (h3 : ¬(s.newRobLocX = INVALID_LOC ∧ s.newRobLocY = INVALID_LOC))
    (h4 : s.waypointCounter ≠ s.numWaypoints - 2)
    (hs : s.searcher = some pl) :
    (okStateEvent p s).2 =
      [Output.getNextWaypointCall (s.waypointCounter + 1),
       Output.waypointMsg (s.waypointCounter + 1) 0 s.numWaypoints
         (pl.getStateFromIndex (pl.getNextWaypoint (s.waypointCounter + 1))).1
         (pl.getStateFromIndex (pl.getNextWaypoint (s.waypointCounter + 1))).2 0 0] := by
  rw [okState_branch4_send p pl s h1 h2 h3 h4 hs]

theorem waypoint_message_fields_witness :
    (okStateEvent cPlanner streamState).2 =
      [Output.getNextWaypointCall (streamState.waypointCounter + 1),
       Output.waypointMsg (streamState.waypointCounter + 1) 0 streamState.numWaypoints
         (cPlanner.getStateFromIndex (cPlanner.getNextWaypoint (streamState.waypointCounter + 1))).1
         (cPlanner.getStateFromIndex (cPlanner.getNextWaypoint (streamState.waypointCounter + 1))).2 0 0] :=
  waypoint_message_fields cPlanner cPlanner streamState
    (by decide) (by decide) (by decide) (by decide) rfl

/-- Claim C10: if the waypoint-streaming branch is entered in a state with
waypointCounter + 2 = numWaypoints — in particular when the search returned
a waypoint count of 1 while the counter still holds the constructor's
sentinel -1 — the node disconnects immediately, with no `getNextWaypoint`
call and no waypoint message. -/
theorem trivial_path_disconnects_immediately (p : Planner) (s : NodeState)
    (h1 : ¬(s.golLocX = INVALID_LOC ∧ s.golLocY = INVALID_LOC))
    (h2 : ¬(s.robLocX = INVALID_LOC ∨ s.robLocY = INVALID_LOC))
    (h3 : ¬(s.newRobLocX = INVALID_LOC ∧ s.newRobLocY = INVALID_LOC))
    (h4 : s.waypointCounter + 2 = s.numWaypoints) :
    okStateEvent p s = ({ s with disconnected := true }, [Output.disconnect]) :=
  okState_branch4_done p s h1 h2 h3 (by omega)

theorem trivial_path_disconnects_immediately_witness :
    okStateEvent cPlanner trivialPathState =
      ({ trivialPathState with disconnected := true }, [Output.disconnect]) :=
  trivial_path_disconnects_immediately cPlanner trivialPathState
    (by decide) (by decide) (by decide) (by decide)

/-! ### Trace predicates and the run invariant -/

def isSearchCall : Output → Bool
  | Output.searchCall _ => true
  | _ => false

def isWaypointMsg : Output → Bool
  | Output.waypointMsg _ _ _ _ _ _ _ => true
  | _ => false

def isGoalMsg : Output → Bool
  | Output.goalMsg _ _ _ _ => true
  | _ => false

def isConstruction : Output → Bool
  | Output.searcherConstructed => true
  | _ => false

/-- A planner whose goal accessors and index-to-coordinate conversion only
produce valid (non-negative) grid coordinates, as the spec requires of the
grid world ("distinct from any valid coordinate"). -/
def ValidPlanner (p : Planner) : Prop :=
  0 ≤ p.goalX ∧ 0 ≤ p.goalY ∧
  ∀ i : Int, 0 ≤ (p.getStateFromIndex i).1 ∧ 0 ≤ (p.getStateFromIndex i).2

/-- A message whose reported robot location is a valid coordinate pair (the
spec's contract: the sentinel is never fed back into the node). -/
def ValidMessage (m : Message) : Prop :=
  match m.payload with
  | Payload.platformMotion pm =>
      pm.orientation0 ≠ INVALID_LOC ∧ pm.orientation1 ≠ INVALID_LOC
  | Payload.other => True

def ValidEvent : Event → Prop
  | Event.okEvt p => ValidPlanner p
  | Event.msgEvt m => ValidMessage m

/-- Ordering facts about an output trace: any prefix containing a waypoint
message contains a search call, any prefix containing a search call
contains the planner construction, and once a prefix contains a search
call, no goal message follows it. -/
def OrderOK (t : List Output) : Prop :=
  ∀ pre suf, t = pre ++ suf →
    (pre.any isWaypointMsg = true → pre.any isSearchCall = true) ∧
    (pre.any isSearchCall = true → pre.any isConstruction = true) ∧
    (pre.any isSearchCall = true → suf.any isGoalMsg = false)

/-- The invariant tying a node state to the output trace that produced it. -/
def Inv (s : NodeState) (t : List Output) : Prop :=
  (∀ pl, s.searcher = some pl → ValidPlanner pl) ∧
  (t.any isSearchCall = true ↔ ¬(s.newRobLocX = INVALID_LOC ∧ s.newRobLocY = INVALID_LOC)) ∧
  t.countP isSearchCall ≤ 1 ∧
  (t.any isConstruction = true ↔ ¬(s.golLocX = INVALID_LOC ∧ s.golLocY = INVALID_LOC)) ∧
  (t.any isSearchCall = true → s.robLocX ≠ INVALID_LOC ∧ s.robLocY ≠ INVALID_LOC) ∧
  OrderOK t

lemma orderOK_nil : OrderOK [] := by
  intro pre suf h
  obtain ⟨hp, hs⟩ := List.append_eq_nil.mp h.symm
  subst hp; subst hs
  simp

lemma orderOK_append (t out : List Output) (hO : OrderOK t)
    (hw : out.any isWaypointMsg = true → t.any isSearchCall = true)
    (hcn : out.any isSearchCall = true → t.any isConstruction = true)
    (hgm : out.any isGoalMsg = true →
      t.any isSearchCall = false ∧ out.any isSearchCall = false) :
    OrderOK (t ++ out) := by
  intro pre suf heq
  rcases List.append_eq_append_iff.mp heq with ⟨a, hpre, hout⟩ | ⟨c, ht, hsuf⟩
  · subst hpre
    subst hout
    have hOt := hO t [] (by simp)
    refine ⟨?_, ?_, ?_⟩
    · intro h
      rw [List.any_append] at h ⊢
      rcases Bool.or_eq_true_iff.mp h with h | h
      · exact Bool.or_eq_true_iff.mpr (Or.inl (hOt.1 h))
      · have : (a ++ suf).any isWaypointMsg = true := by
          rw [List.any_append]; exact Bool.or_eq_true_iff.mpr (Or.inl h)
        exact Bool.or_eq_true_iff.mpr (Or.inl (hw this))
    · intro h
      rw [List.any_append] at h ⊢
      rcases Bool.or_eq_true_iff.mp h with h | h
      · exact Bool.or_eq_true_iff.mpr (Or.inl (hOt.2.1 h))
      · have : (a ++ suf).any isSearchCall = true := by
          rw [List.any_append]; exact Bool.or_eq_true_iff.mpr (Or.inl h)
        exact Bool.or_eq_true_iff.mpr (Or.inl (hcn this))
    · intro h
      by_contra hne
      have hsg : suf.any isGoalMsg = true := by
        cases hx : suf.any isGoalMsg with
        | true => rfl
        | false => exact absurd hx hne
      have hog : (a ++ suf).any isGoalMsg = true := by
        rw [List.any_append]; exact Bool.or_eq_true_iff.mpr (Or.inr hsg)
      obtain ⟨hts, hos⟩ := hgm hog
      rw [List.any_append] at h
      rcases Bool.or_eq_true_iff.mp h with h | h
      · rw [hts] at h; exact Bool.false_ne_true h
      · have : (a ++ suf).any isSearchCall = true := by
          rw [List.any_append]; exact Bool.or_eq_true_iff.mpr (Or.inl h)
        rw [hos] at this; exact Bool.false_ne_true this
  · subst ht
    subst hsuf
    have hOp := hO pre c rfl
    refine ⟨hOp.1, hOp.2.1, ?_⟩
    · intro h
      rw [List.any_append]
      have hcg : c.any isGoalMsg = false := hOp.2.2 h
      have hog : out.any isGoalMsg = false := by
        cases hx : out.any isGoalMsg with
        | false => rfl
        | true =>
            obtain ⟨hts, -⟩ := hgm hx
            rw [List.any_append] at hts
            have : pre.any isSearchCall = false := by
              cases hy : pre.any isSearchCall with
              | false => rfl
              | true => rw [hy] at hts; simp at hts
            rw [this] at h; exact absurd h Bool.false_ne_true
      rw [hcg, hog]
      rfl

/-- One framework step preserves the invariant. -/
lemma inv_step (g : Nat) (s : NodeState) (t : List Output) (e : Event)
    (hv : ValidEvent e) (hI : Inv s t) :
    Inv (step g s e).1 (t ++ (step g s e).2) := by
  obtain ⟨hSea, hNew, hCnt, hGol, hRob, hOrd⟩ := hI
  cases e with
  | msgEvt m =>
      by_cases hd : s.disconnected = true
      · simpa [step, hd] using ⟨hSea, hNew, hCnt, hGol, hRob, hOrd⟩
      · have hvm : ValidMessage m := hv
        obtain ⟨gsrc, pl⟩ := m
        cases pl with
        | other =>
            simpa [step, hd, messageEvent] using
              ⟨hSea, hNew, hCnt, hGol, hRob, fun pre suf hps => hOrd pre suf hps⟩
        | platformMotion pm =>
            simp only [step, hd, if_false, Bool.false_eq_true, List.append_nil]
            unfold messageEvent
            dsimp only
            split_ifs with hg' hdf
            · exact ⟨hSea, hNew, hCnt, hGol, hRob, hOrd⟩
            · unfold ValidMessage at hvm
              refine ⟨fun pl' hpl' => hSea pl' hpl', ?_, hCnt, ?_, ?_, hOrd⟩
              · exact hNew
              · exact hGol
              · intro h
                exact ⟨hvm.1, hvm.2⟩
            · exact ⟨hSea, hNew, hCnt, hGol, hRob, hOrd⟩
  | okEvt p =>
      have hvp : ValidPlanner p := hv
      by_cases hd : s.disconnected = true
      · simpa [step, hd] using ⟨hSea, hNew, hCnt, hGol, hRob, hOrd⟩
      · simp only [step, hd, if_false, Bool.false_eq_true]
        by_cases h1 : s.golLocX = INVALID_LOC ∧ s.golLocY = INVALID_LOC
        · rw [okState_branch1 p s h1]
          refine ⟨?_, ?_, ?_, ?_, ?_, ?_⟩
          · intro pl hpl
            exact (Option.some.inj hpl) ▸ hvp
          · simpa [List.any_append, isSearchCall] using hNew
          · simpa [List.countP_append, List.countP_cons, isSearchCall] using hCnt
          · refine iff_of_true (by simp [List.any_append, isConstruction]) ?_
            intro hx
            have hx1 : p.goalX = -1 := hx.1
            have hgx := hvp.1
            omega
          · intro h
            exact hRob (by simpa [List.any_append, isSearchCall] using h)
          · exact orderOK_append t _ hOrd
              (by intro h; simp [isWaypointMsg] at h)
              (by intro h; simp [isSearchCall] at h)
              (by intro h; simp [isGoalMsg] at h)
        · by_cases h2 : s.robLocX = INVALID_LOC ∨ s.robLocY = INVALID_LOC
          · rw [okState_branch2 p s h1 h2]
            refine ⟨hSea, ?_, ?_, ?_, ?_, ?_⟩
            · simpa [List.any_append, isSearchCall] using hNew
            · simpa [List.countP_append, List.countP_cons, isSearchCall] using hCnt
            · simpa [List.any_append, isConstruction] using hGol
            · intro h
              exact hRob (by simpa [List.any_append, isSearchCall] using h)
            · refine orderOK_append t _ hOrd
                (by intro h; simp [isWaypointMsg] at h)
                (by intro h; simp [isSearchCall] at h)
                ?_
              intro _
              refine ⟨?_, by simp [isSearchCall]⟩
              cases hx : t.any isSearchCall with
              | false => rfl
              | true =>
                  obtain ⟨ha, hb⟩ := hRob hx
                  rcases h2 with h2 | h2
                  · exact absurd h2 ha
                  · exact absurd h2 hb
          · by_cases h3 : s.newRobLocX = INVALID_LOC ∧ s.newRobLocY = INVALID_LOC
            · cases hsc : s.searcher with
              | none =>
                  rw [okState_branch3_none p s h1 h2 h3 hsc]
                  refine ⟨hSea, ?_, ?_, ?_, ?_, ?_⟩
                  · simpa [List.any_append, isSearchCall] using hNew
                  · simpa [List.countP_append, List.countP_cons, isSearchCall] using hCnt
                  · simpa [List.any_append, isConstruction] using hGol
                  · intro h
                    exact hRob (by simpa [List.any_append, isSearchCall] using h)
                  · exact orderOK_append t _ hOrd
                      (by intro h; simp [isWaypointMsg] at h)
                      (by intro h; simp [isSearchCall] at h)
                      (by intro h; simp [isGoalMsg] at h)
              | some pl =>
                  rw [okState_branch3 p pl s h1 h2 h3 hsc]
                  push_neg at h2
                  refine ⟨?_, ?_, ?_, ?_, ?_, ?_⟩
                  · intro pl' hpl'
                    exact hSea pl' hpl'
                  · refine iff_of_true (by simp [List.any_append, isSearchCall]) ?_
                    rintro ⟨hx, -⟩
                    exact h2.1 hx
                  · have hta : t.any isSearchCall = false := by
                      cases hx : t.any isSearchCall with
                      | false => rfl
                      | true => exact absurd h3 (hNew.mp hx)
                    have ht0 : t.countP isSearchCall = 0 := by
                      rw [List.countP_eq_zero]
                      intro a ha
                      exact (List.any_eq_false.mp hta) a ha
                    simp [List.countP_append, ht0, List.countP_cons, isSearchCall]
                  · simpa [List.any_append, isConstruction] using hGol
                  · intro _
                    exact h2
                  · exact orderOK_append t _ hOrd
                      (by intro h; simp [isWaypointMsg] at h)
                      (by intro _; exact hGol.mpr h1)
                      (by intro h; simp [isGoalMsg] at h)
            · by_cases h4 : s.waypointCounter = s.numWaypoints - 2
              · rw [okState_branch4_done p s h1 h2 h3 h4]
                refine ⟨hSea, ?_, ?_, ?_, ?_, ?_⟩
                · simpa [List.any_append, isSearchCall] using hNew
                · simpa [List.countP_append, List.countP_cons, isSearchCall] using hCnt
                · simpa [List.any_append, isConstruction] using hGol
                · intro h
                  exact hRob (by simpa [List.any_append, isSearchCall] using h)
                · exact orderOK_append t _ hOrd
                    (by intro h; simp [isWaypointMsg] at h)
                    (by intro h; simp [isSearchCall] at h)
                    (by intro h; simp [isGoalMsg] at h)
              · cases hsc : s.searcher with
                | none =>
                    rw [okState_branch4_none p s h1 h2 h3 h4 hsc]
                    refine ⟨hSea, ?_, ?_, ?_, ?_, ?_⟩
                    · simpa [List.any_append, isSearchCall] using hNew
                    · simpa [List.countP_append, List.countP_cons, isSearchCall] using hCnt
                    · simpa [List.any_append, isConstruction] using hGol
                    · intro h
                      exact hRob (by simpa [List.any_append, isSearchCall] using h)
                    · exact orderOK_append t _ hOrd
                        (by intro h; simp [isWaypointMsg] at h)
                        (by intro h; simp [isSearchCall] at h)
                        (by intro h; simp [isGoalMsg] at h)
                | some pl =>
                    rw [okState_branch4_send p pl s h1 h2 h3 h4 hsc]
                    have hvpl : ValidPlanner pl := hSea pl hsc
                    have hts : t.any isSearchCall = true := hNew.mpr h3
                    refine ⟨?_, ?_, ?_, ?_, ?_, ?_⟩
                    · intro pl' hpl'
                      exact hSea pl' hpl'
                    · refine iff_of_true (by simp [List.any_append, hts]) ?_
                      intro hx
                      have hx1 : (pl.getStateFromIndex (pl.getNextWaypoint (s.waypointCounter + 1))).1 = -1 := hx.1
                      have hnn := (hvpl.2.2 (pl.getNextWaypoint (s.waypointCounter + 1))).1
                      omega
                    · simpa [List.countP_append, List.countP_cons, isSearchCall] using hCnt
                    · simpa [List.any_append, isConstruction] using hGol
                    · intro _
                      exact hRob hts
                    · exact orderOK_append t _ hOrd
                        (by intro _; exact hts)
                        (by intro h; simp [isSearchCall] at h)
                        (by intro h; simp [isGoalMsg] at h)

lemma inv_init : Inv initState [] := by
  refine ⟨?_, ?_, ?_, ?_, ?_, orderOK_nil⟩
  · intro pl h
    simp [initState] at h
  · simp [initState]
  · simp
  · simp [initState]
  · intro h
    simp at h

/-- The invariant holds after running any list of valid events. -/
lemma inv_runFrom (g : Nat) (evs : List Event) :
    ∀ (s : NodeState) (t : List Output),
      (∀ e ∈ evs, ValidEvent e) → Inv s t →
      Inv (runFrom g s evs).1 (t ++ (runFrom g s evs).2) := by
  induction evs with
  | nil =>
      intro s t _ hI
      simpa [runFrom] using hI
  | cons e es ih =>
      intro s t hv hI
      have h1 := inv_step g s t e (hv e (by simp)) hI
      have h2 := ih (step g s e).1 (t ++ (step g s e).2)
        (fun e' he' => hv e' (by simp [he'])) h1
      simpa [runFrom, List.append_assoc] using h2

/-- Claim C4: over any run of valid events from the constructor state,
`searchAStar` is called at most once; every prefix of the output trace that
contains a waypoint message already contains the search call, and every
prefix that contains the search call already contains the goal generation
(planner construction); moreover a search call is only ever emitted from a
state in which both robot start coordinates are known. -/
theorem search_once_and_session_order (g : Nat) (evs : List Event)
    (hv : ∀ e ∈ evs, ValidEvent e) :
    (runFrom g initState evs).2.countP isSearchCall ≤ 1 ∧
    (∀ pre suf, (runFrom g initState evs).2 = pre ++ suf →
      (pre.any isWaypointMsg = true → pre.any isSearchCall = true) ∧
      (pre.any isSearchCall = true → pre.any isConstruction = true)) ∧
    (∀ (p : Planner) (s : NodeState) (i : Int),
      Output.searchCall i ∈ (okStateEvent p s).2 →
      s.robLocX ≠ INVALID_LOC ∧ s.robLocY ≠ INVALID_LOC) := by
  have h := inv_runFrom g evs initState [] hv inv_init
  rw [List.nil_append] at h
  obtain ⟨-, -, hc, -, -, ho⟩ := h
  refine ⟨hc, ?_, ?_⟩
  · intro pre suf hsplit
    exact ⟨(ho pre suf hsplit).1, (ho pre suf hsplit).2.1⟩
  · intro p s i hmem
    unfold okStateEvent at hmem
    split_ifs at hmem with hh1 hh2 hh3 hh4
    · simp at hmem
    · simp at hmem
    · revert hmem
      cases s.searcher with
      | none => intro hmem; simp at hmem
      | some pl =>
          intro _
          push_neg at hh2
          exact hh2
    · simp at hmem
    · revert hmem
      cases s.searcher with
      | none => intro hmem; simp at hmem
      | some pl => intro hmem; simp at hmem
    · simp at hmem

/-- Claim C6: the goal is read from the planner's accessors at
goal-generation time; every published goal message carries exactly
(golLocX, golLocY, 0, 0) in its orientation fields and is emitted only
while a robot start coordinate is still the sentinel; and in any run of
valid events no goal message follows the search call. -/
theorem goal_read_published_before_search :
    (∀ (p : Planner) (s : NodeState),
      s.golLocX = INVALID_LOC ∧ s.golLocY = INVALID_LOC →
      (okStateEvent p s).1.golLocX = p.goalX ∧ (okStateEvent p s).1.golLocY = p.goalY) ∧
    (∀ (p : Planner) (s : NodeState) (a b c d : Int),
      Output.goalMsg a b c d ∈ (okStateEvent p s).2 →
      a = s.golLocX ∧ b = s.golLocY ∧ c = 0 ∧ d = 0 ∧
      (s.robLocX = INVALID_LOC ∨ s.robLocY = INVALID_LOC)) ∧
    (∀ (g : Nat) (evs : List Event), (∀ e ∈ evs, ValidEvent e) →
      ∀ pre suf, (runFrom g initState evs).2 = pre ++ suf →
        pre.any isSearchCall = true → suf.any isGoalMsg = false) := by
  refine ⟨?_, ?_, ?_⟩
  · intro p s h1
    rw [okState_branch1 p s h1]
    exact ⟨rfl, rfl⟩
  · intro p s a b c d hmem
    unfold okStateEvent at hmem
    split_ifs at hmem with hh1 hh2 hh3 hh4
    · simp at hmem
    · simp only [List.mem_cons, List.not_mem_nil, or_false] at hmem
      obtain ⟨ha, hb, hcc, hd⟩ := Output.goalMsg.inj hmem
      exact ⟨ha, hb, hcc, hd, hh2⟩
    · revert hmem
      cases s.searcher with
      | none => intro hmem; simp at hmem
      | some pl => intro hmem; simp at hmem
    · simp at hmem
    · revert hmem
      cases s.searcher with
      | none => intro hmem; simp at hmem
      | some pl => intro hmem; simp at hmem
    · simp at hmem
  · intro g evs hv pre suf hsplit hps
    have h := inv_runFrom g evs initState [] hv inv_init
    rw [List.nil_append] at h
    obtain ⟨-, -, -, -, -, ho⟩ := h
    exact (ho pre suf hsplit).2.2 hps

/-! ### Concrete valid run used by the trace-level witnesses -/

/-- A concrete planner whose accessors only produce valid coordinates. -/
def wPlanner : Planner :=
  { goalX := 0
    goalY := 0
    getIndexFromState := fun _ _ => 0
    searchAStar := fun _ => 1
    getNextWaypoint := fun i => i
    getStateFromIndex := fun _ => (0, 0) }

lemma wPlanner_valid : ValidPlanner wPlanner :=
  ⟨le_refl 0, le_refl 0, fun _ => ⟨le_refl 0, le_refl 0⟩⟩

/-- A concrete robot message reporting start location (0, 0). -/
def wStartMsg : Message :=
  { sourceGuid := 1
    payload := Payload.platformMotion
      { orientation0 := 0, orientation1 := 0, orientation2 := 0, orientation3 := 0,
        position0 := INVALID_LOC, position1 := 0, position2 := 0 } }

/-- A short complete prefix of a session: goal generation, goal
publication, robot start report, search. -/
def wRunEvents : List Event :=
  [Event.okEvt wPlanner, Event.okEvt wPlanner, Event.msgEvt wStartMsg,
   Event.okEvt wPlanner]

lemma wRunEvents_valid : ∀ e ∈ wRunEvents, ValidEvent e := by
  intro e he
  simp only [wRunEvents, List.mem_cons, List.not_mem_nil, or_false] at he
  rcases he with rfl | rfl | rfl | rfl
  · exact wPlanner_valid
  · exact wPlanner_valid
  · exact ⟨by decide, by decide⟩
  · exact wPlanner_valid

theorem search_once_and_session_order_witness :
    (runFrom 0 initState wRunEvents).2.countP isSearchCall ≤ 1 :=
  (search_once_and_session_order 0 wRunEvents wRunEvents_valid).1

/-- A concrete state still waiting for the robot start location: goal
generated at (4, 4), robot location unknown. -/
def goalWaitState : NodeState :=
  { searcher := some cPlanner
    golLocX := 4
    golLocY := 4
    robLocX := INVALID_LOC
    robLocY := INVALID_LOC
    newRobLocX := INVALID_LOC
    newRobLocY := INVALID_LOC
    numWaypoints := INVALID_LOC
    waypointCounter := INVALID_LOC
    disconnected := false }

theorem goal_read_published_before_search_witness :
    ((okStateEvent wPlanner initState).1.golLocX = wPlanner.goalX ∧
      (okStateEvent wPlanner initState).1.golLocY = wPlanner.goalY) ∧
    ((4 : Int) = goalWaitState.golLocX ∧ (4 : Int) = goalWaitState.golLocY ∧
      (0 : Int) = 0 ∧ (0 : Int) = 0 ∧
      (goalWaitState.robLocX = INVALID_LOC ∨ goalWaitState.robLocY = INVALID_LOC)) ∧
    ([].any isGoalMsg = false) := by
  refine ⟨?_, ?_, ?_⟩
  · exact goal_read_published_before_search.1 wPlanner initState ⟨rfl, rfl⟩
  · exact goal_read_published_before_search.2.1 cPlanner goalWaitState 4 4 0 0 (by decide)
  · exact goal_read_published_before_search.2.2 0 wRunEvents wRunEvents_valid
      (runFrom 0 initState wRunEvents).2 [] (by simp) (by decide)

/-! ### A complete session run: search, then waypoint streaming with the
robot acknowledging every sent waypoint -/

/-- The coordinate pair of the path cell at sequence index `k`, as obtained
by converting `getNextWaypoint k` through `getStateFromIndex`. -/
def wpCoord (p : Planner) (k : Nat) : Int × Int :=
  p.getStateFromIndex (p.getNextWaypoint (k : Int))

/-- The robot's initial report of its start location (rx, ry); its
position[0] field still carries the invalid sentinel, no waypoint having
been received yet. -/
def startMsg (rx ry : Int) : Message :=
  { sourceGuid := 1
    payload := Payload.platformMotion
      { orientation0 := rx, orientation1 := ry, orientation2 := 0, orientation3 := 0,
        position0 := INVALID_LOC, position1 := 0, position2 := 0 } }

/-- The robot's acknowledgment after moving to waypoint `k`: it reports
the waypoint's coordinates as its new location and `k` in position[0]. -/
def ackMsg (p : Planner) (k : Nat) : Message :=
  { sourceGuid := 1
    payload := Payload.platformMotion
      { orientation0 := (wpCoord p k).1, orientation1 := (wpCoord p k).2,
        orientation2 := 0, orientation3 := 0,
        position0 := (k : Int), position1 := 0, position2 := 0 } }

/-- A schedule of `count` rounds of: an ok-state callback (sending one waypoint)
followed by the robot's acknowledgment, starting at sequence index
`start`. -/
def loopEvents (p : Planner) (start count : Nat) : List Event :=
  match count with
  | 0 => []
  | c + 1 =>
      Event.okEvt p :: Event.msgEvt (ackMsg p start) :: loopEvents p (start + 1) c

/-- The outputs of those rounds: a `getNextWaypoint` call and the published
waypoint message per round. -/
def loopOutputs (p : Planner) (m : Int) (start count : Nat) : List Output :=
  match count with
  | 0 => []
  | c + 1 =>
      Output.getNextWaypointCall (start : Int) ::
      Output.waypointMsg (start : Int) 0 m (wpCoord p start).1 (wpCoord p start).2 0 0 ::
      loopOutputs p m (start + 1) c

/-- The full session event schedule: goal generation, goal publication,
the robot's start report, the search, then the acknowledged streaming
rounds and the final ok-state callback that hits the completion check. -/
def canonicalEvents (p : Planner) (rx ry : Int) (n : Nat) : List Event :=
  Event.okEvt p :: Event.okEvt p :: Event.msgEvt (startMsg rx ry) :: Event.okEvt p ::
    (loopEvents p 0 (n - 1) ++ [Event.okEvt p])

/-- Node state after goal generation. -/
def goalSetState (p : Planner) : NodeState :=
  { searcher := some p
    golLocX := p.goalX
    golLocY := p.goalY
    robLocX := INVALID_LOC
    robLocY := INVALID_LOC
    newRobLocX := INVALID_LOC
    newRobLocY := INVALID_LOC
    numWaypoints := INVALID_LOC
    waypointCounter := INVALID_LOC
    disconnected := false }

/-- Node state after the robot's start report. -/
def startSetState (p : Planner) (rx ry : Int) : NodeState :=
  { searcher := some p
    golLocX := p.goalX
    golLocY := p.goalY
    robLocX := rx
    robLocY := ry
    newRobLocX := INVALID_LOC
    newRobLocY := INVALID_LOC
    numWaypoints := INVALID_LOC
    waypointCounter := INVALID_LOC
    disconnected := false }

/-- Node state after the search returned `n` waypoints. -/
def searchedState (p : Planner) (rx ry : Int) (n : Nat) : NodeState :=
  { searcher := some p
    golLocX := p.goalX
    golLocY := p.goalY
    robLocX := rx
    robLocY := ry
    newRobLocX := rx
    newRobLocY := ry
    numWaypoints := (n : Int)
    waypointCounter := INVALID_LOC
    disconnected := false }

/-- Running the streaming rounds followed by one more ok-state callback
from any mid-stream state sends waypoints `start`, `start + 1`, … and ends
with the completion check firing: the node disconnects with the counter at
`numWaypoints - 2`. -/
lemma loop_run (p : Planner) (n : Nat)
    (hgx : 0 ≤ p.goalX)
    (hc : ∀ j : Nat, j < n → 0 ≤ (wpCoord p j).1 ∧ 0 ≤ (wpCoord p j).2)
    (hchain : ∀ j : Nat, j < n - 1 → wpCoord p (j + 1) ≠ wpCoord p j) :
    ∀ (count start : Nat) (s : NodeState),
      s.searcher = some p →
      s.golLocX = p.goalX →
      0 ≤ s.robLocX → 0 ≤ s.robLocY →
      s.newRobLocX = s.robLocX → s.newRobLocY = s.robLocY →
      s.numWaypoints = (n : Int) →
      s.waypointCounter = (start : Int) - 1 →
      s.disconnected = false →
      start + count + 1 = n →
      (count ≠ 0 → wpCoord p start ≠ (s.robLocX, s.robLocY)) →
      ∃ s', runFrom 0 s (loopEvents p start count ++ [Event.okEvt p])
          = (s', loopOutputs p (n : Int) start count ++ [Output.disconnect]) ∧
        s'.disconnected = true ∧ s'.waypointCounter = (n : Int) - 2 := by
  intro count
  induction count with
  | zero =>
      intro start s hsea hgol hrx hry hnx hny hnum hcnt hdis harith _hd
      have h1 : ¬(s.golLocX = INVALID_LOC ∧ s.golLocY = INVALID_LOC) := by
        rintro ⟨hx, -⟩
        rw [hgol] at hx
        have hx1 : p.goalX = -1 := hx
        omega
      have h2 : ¬(s.robLocX = INVALID_LOC ∨ s.robLocY = INVALID_LOC) := by
        rintro (hx | hx)
        · have hx1 : s.robLocX = -1 := hx
          omega
        · have hx1 : s.robLocY = -1 := hx
          omega
      have h3 : ¬(s.newRobLocX = INVALID_LOC ∧ s.newRobLocY = INVALID_LOC) := by
        rintro ⟨hx, -⟩
        rw [hnx] at hx
        have hx1 : s.robLocX = -1 := hx
        omega
      have h4 : s.waypointCounter = s.numWaypoints - 2 := by
        rw [hcnt, hnum]
        omega
      have hstep : step 0 s (Event.okEvt p)
          = ({ s with disconnected := true }, [Output.disconnect]) := by
        simp only [step, hdis, Bool.false_eq_true, if_false]
        rw [okState_branch4_done p s h1 h2 h3 h4]
      refine ⟨{ s with disconnected := true }, ?_, rfl, ?_⟩
      · simp [loopEvents, loopOutputs, runFrom, hstep]
      · show s.waypointCounter = (n : Int) - 2
        rw [hcnt]
        omega
  | succ c ih =>
      intro start s hsea hgol hrx hry hnx hny hnum hcnt hdis harith hd
      have h1 : ¬(s.golLocX = INVALID_LOC ∧ s.golLocY = INVALID_LOC) := by
        rintro ⟨hx, -⟩
        rw [hgol] at hx
        have hx1 : p.goalX = -1 := hx
        omega
      have h2 : ¬(s.robLocX = INVALID_LOC ∨ s.robLocY = INVALID_LOC) := by
        rintro (hx | hx)
        · have hx1 : s.robLocX = -1 := hx
          omega
        · have hx1 : s.robLocY = -1 := hx
          omega
      have h3 : ¬(s.newRobLocX = INVALID_LOC ∧ s.newRobLocY = INVALID_LOC) := by
        rintro ⟨hx, -⟩
        rw [hnx] at hx
        have hx1 : s.robLocX = -1 := hx
        omega
      have h4 : s.waypointCounter ≠ s.numWaypoints - 2 := by
        rw [hcnt, hnum]
        intro heq
        omega
      have hc1 : s.waypointCounter + 1 = (start : Int) := by
        rw [hcnt]
        omega
      have hstep1 : step 0 s (Event.okEvt p)
          = ({ s with newRobLocX := (wpCoord p start).1
                      newRobLocY := (wpCoord p start).2 },
             [Output.getNextWaypointCall (start : Int),
              Output.waypointMsg (start : Int) 0 (n : Int)
                (wpCoord p start).1 (wpCoord p start).2 0 0]) := by
        simp only [step, hdis, Bool.false_eq_true, if_false]
        rw [okState_branch4_send p p s h1 h2 h3 h4 hsea, hc1, hnum, hdis]
        rfl
      have hd1 : wpCoord p start ≠ (s.robLocX, s.robLocY) := hd (Nat.succ_ne_zero c)
      have hguard : (wpCoord p start).1 ≠ s.robLocX ∨ (wpCoord p start).2 ≠ s.robLocY := by
        by_contra hng
        push_neg at hng
        exact hd1 (Prod.ext_iff.mpr ⟨hng.1, hng.2⟩)
      have hstep2 : step 0
          ({ s with newRobLocX := (wpCoord p start).1
                    newRobLocY := (wpCoord p start).2 })
          (Event.msgEvt (ackMsg p start))
          = ({ s with robLocX := (wpCoord p start).1
                      robLocY := (wpCoord p start).2
                      newRobLocX := (wpCoord p start).1
                      newRobLocY := (wpCoord p start).2
                      waypointCounter := (start : Int) }, []) := by
        simp only [step, hdis, Bool.false_eq_true, if_false]
        unfold messageEvent ackMsg
        dsimp only
        rw [if_neg (by decide : ¬(1 = 0)), if_pos hguard]
      have hlt : start < n := by omega
      obtain ⟨s', hrun, hdisc, hcnt'⟩ := ih (start + 1)
        ({ s with robLocX := (wpCoord p start).1
                  robLocY := (wpCoord p start).2
                  newRobLocX := (wpCoord p start).1
                  newRobLocY := (wpCoord p start).2
                  waypointCounter := (start : Int) })
        hsea hgol (hc start hlt).1 (hc start hlt).2 rfl rfl hnum
        (by show (start : Int) = ((start + 1 : Nat) : Int) - 1; push_cast; omega)
        hdis (by omega)
        (by intro hc0
            show wpCoord p (start + 1) ≠ ((wpCoord p start).1, (wpCoord p start).2)
            rw [Prod.mk.eta]
            exact hchain start (by omega))
      refine ⟨s', ?_, hdisc, hcnt'⟩
      have hcons : loopEvents p start (c + 1) ++ [Event.okEvt p]
          = Event.okEvt p :: Event.msgEvt (ackMsg p start) ::
              (loopEvents p (start + 1) c ++ [Event.okEvt p]) := by
        simp [loopEvents]
      rw [hcons]
      simp only [runFrom]
      rw [hstep1]
      dsimp only
      rw [hstep2]
      dsimp only
      rw [hrun]
      simp [loopOutputs]

/-- The complete session run: its exact output trace.  Hypotheses: the
planner's goal and coordinate conversions are valid (non-negative), the
robot's start location is valid, the search returns `n ≥ 1` waypoints,
the first path cell differs from the start when there is more than one
waypoint, and consecutive path cells have distinct coordinates. -/
lemma canonical_run (p : Planner) (rx ry : Int) (n : Nat)
    (hgx : 0 ≤ p.goalX) (hrx : 0 ≤ rx) (hry : 0 ≤ ry)
    (hn : p.searchAStar (p.getIndexFromState rx ry) = (n : Int)) (hn1 : 1 ≤ n)
    (hc : ∀ j : Nat, j < n → 0 ≤ (wpCoord p j).1 ∧ 0 ≤ (wpCoord p j).2)
    (hd0 : n ≠ 1 → wpCoord p 0 ≠ (rx, ry))
    (hchain : ∀ j : Nat, j < n - 1 → wpCoord p (j + 1) ≠ wpCoord p j) :
    ∃ s', runFrom 0 initState (canonicalEvents p rx ry n)
        = (s', Output.searcherConstructed ::
               Output.goalMsg p.goalX p.goalY 0 0 ::
               Output.getIndexCall rx ry ::
               Output.searchCall (p.getIndexFromState rx ry) ::
               (loopOutputs p (n : Int) 0 (n - 1) ++ [Output.disconnect])) ∧
      s'.disconnected = true ∧ s'.waypointCounter = (n : Int) - 2 := by
  have hst1 : step 0 initState (Event.okEvt p)
      = (goalSetState p, [Output.searcherConstructed]) := by
    have hd' : initState.disconnected = false := rfl
    simp only [step, hd', Bool.false_eq_true, if_false]
    rw [okState_branch1 p initState ⟨rfl, rfl⟩]
    rfl
  have hA1 : ¬((goalSetState p).golLocX = INVALID_LOC ∧ (goalSetState p).golLocY = INVALID_LOC) := by
    rintro ⟨hx, -⟩
    have hx1 : p.goalX = -1 := hx
    omega
  have hst2 : step 0 (goalSetState p) (Event.okEvt p)
      = (goalSetState p, [Output.goalMsg p.goalX p.goalY 0 0]) := by
    have hd' : (goalSetState p).disconnected = false := rfl
    simp only [step, hd', Bool.false_eq_true, if_false]
    rw [okState_branch2 p (goalSetState p) hA1 (Or.inl rfl)]
    rfl
  have hst3 : step 0 (goalSetState p) (Event.msgEvt (startMsg rx ry))
      = (startSetState p rx ry, []) := by
    have hd' : (goalSetState p).disconnected = false := rfl
    simp only [step, hd', Bool.false_eq_true, if_false]
    unfold messageEvent startMsg
    dsimp only
    rw [if_neg (by decide : ¬(1 = 0)),
        if_pos (Or.inl (show rx ≠ (goalSetState p).robLocX by
          intro hx
          have hx1 : rx = -1 := hx
          omega))]
    rfl
  have hB1 : ¬((startSetState p rx ry).golLocX = INVALID_LOC ∧
      (startSetState p rx ry).golLocY = INVALID_LOC) := by
    rintro ⟨hx, -⟩
    have hx1 : p.goalX = -1 := hx
    omega
  have hB2 : ¬((startSetState p rx ry).robLocX = INVALID_LOC ∨
      (startSetState p rx ry).robLocY = INVALID_LOC) := by
    rintro (hx | hx)
    · have hx1 : rx = -1 := hx
      omega
    · have hx1 : ry = -1 := hx
      omega
  have hst4 : step 0 (startSetState p rx ry) (Event.okEvt p)
      = (searchedState p rx ry n,
         [Output.getIndexCall rx ry, Output.searchCall (p.getIndexFromState rx ry)]) := by
    have hd' : (startSetState p rx ry).disconnected = false := rfl
    simp only [step, hd', Bool.false_eq_true, if_false]
    rw [okState_branch3 p p (startSetState p rx ry) hB1 hB2 ⟨rfl, rfl⟩ rfl]
    show ({ startSetState p rx ry with
              numWaypoints := p.searchAStar (p.getIndexFromState rx ry)
              newRobLocX := rx
              newRobLocY := ry }, _) = _
    rw [hn]
    rfl
  obtain ⟨s', hrun, hdisc, hcnt⟩ := loop_run p n hgx hc hchain (n - 1) 0
    (searchedState p rx ry n) rfl rfl hrx hry rfl rfl rfl
    (by show (INVALID_LOC : Int) = ((0 : Nat) : Int) - 1
        simp [INVALID_LOC])
    rfl (by omega)
    (by intro hne
        exact hd0 (by omega))
  refine ⟨s', ?_, hdisc, hcnt⟩
  unfold canonicalEvents
  simp only [runFrom]
  rw [hst1]
  dsimp only
  rw [hst2]
  dsimp only
  rw [hst3]
  dsimp only
  rw [hst4]
  dsimp only
  rw [hrun]
  simp

/-- Every sequence index in `[start, start + count)` has its call and its
waypoint message in the loop outputs. -/
lemma mem_loopOutputs_of_lt (p : Planner) (m : Int) :
    ∀ (count start i : Nat), start ≤ i → i < start + count →
      Output.getNextWaypointCall (i : Int) ∈ loopOutputs p m start count ∧
      Output.waypointMsg (i : Int) 0 m (wpCoord p i).1 (wpCoord p i).2 0 0
        ∈ loopOutputs p m start count := by
  intro count
  induction count with
  | zero =>
      intro start i h1 h2
      omega
  | succ c ih =>
      intro start i h1 h2
      by_cases hi : i = start
      · subst hi
        exact ⟨by simp [loopOutputs], by simp [loopOutputs]⟩
      · have hrec := ih (start + 1) i (by omega) (by omega)
        refine ⟨?_, ?_⟩
        · simp only [loopOutputs, List.mem_cons]
          exact Or.inr (Or.inr hrec.1)
        · simp only [loopOutputs, List.mem_cons]
          exact Or.inr (Or.inr hrec.2)

/-- Conversely, every element of the loop outputs is the call or the
waypoint message of some sequence index in `[start, start + count)`. -/
lemma mem_loopOutputs_shape (p : Planner) (m : Int) :
    ∀ (count start : Nat) (o : Output), o ∈ loopOutputs p m start count →
      ∃ j : Nat, start ≤ j ∧ j < start + count ∧
        (o = Output.getNextWaypointCall (j : Int) ∨
         o = Output.waypointMsg (j : Int) 0 m (wpCoord p j).1 (wpCoord p j).2 0 0) := by
  intro count
  induction count with
  | zero =>
      intro start o ho
      simp [loopOutputs] at ho
  | succ c ih =>
      intro start o ho
      simp only [loopOutputs, List.mem_cons] at ho
      rcases ho with rfl | rfl | ho
      · exact ⟨start, le_refl start, by omega, Or.inl rfl⟩
      · exact ⟨start, le_refl start, by omega, Or.inr rfl⟩
      · obtain ⟨j, hj1, hj2, hj3⟩ := ih (start + 1) o ho
        exact ⟨j, by omega, by omega, hj3⟩

/-- Claim C1 counterexample: a complete run with waypoint count 3 in
which the robot acknowledges every sent waypoint.  The run completes (the
node disconnects), `getNextWaypoint` is called for sequence indices 0 and
1, but never for index 2 = waypointCount − 1: the final cell of the
stored path is not delivered. -/
theorem not_every_index_streamed :
    Output.disconnect ∈ (runFrom 0 initState (canonicalEvents cPlanner 0 0 3)).2 ∧
    Output.getNextWaypointCall 0 ∈ (runFrom 0 initState (canonicalEvents cPlanner 0 0 3)).2 ∧
    Output.getNextWaypointCall 1 ∈ (runFrom 0 initState (canonicalEvents cPlanner 0 0 3)).2 ∧
    Output.getNextWaypointCall 2 ∉ (runFrom 0 initState (canonicalEvents cPlanner 0 0 3)).2 := by
  decide

/-- Claim C1 (amended): after the search succeeds, over a complete run in
which the robot acknowledges every sent waypoint, the streaming loop calls
`getNextWaypoint i` for every sequence index i from 0 to waypointCount − 2
and relays each resulting coordinate pair in a waypoint message; no other
sequence index is ever requested, and the run ends with a disconnect — the
whole stored path except its final cell is delivered. -/
theorem streaming_delivers_all_but_final (p : Planner) (rx ry : Int) (n : Nat)
    (hgx : 0 ≤ p.goalX) (hrx : 0 ≤ rx) (hry : 0 ≤ ry)
    (hn : p.searchAStar (p.getIndexFromState rx ry) = (n : Int)) (hn1 : 1 ≤ n)
    (hc : ∀ j : Nat, j < n → 0 ≤ (wpCoord p j).1 ∧ 0 ≤ (wpCoord p j).2)
    (hd0 : n ≠ 1 → wpCoord p 0 ≠ (rx, ry))
    (hchain : ∀ j : Nat, j < n - 1 → wpCoord p (j + 1) ≠ wpCoord p j) :
    (∀ i : Nat, i < n - 1 →
      Output.getNextWaypointCall (i : Int)
        ∈ (runFrom 0 initState (canonicalEvents p rx ry n)).2 ∧
      Output.waypointMsg (i : Int) 0 (n : Int) (wpCoord p i).1 (wpCoord p i).2 0 0
        ∈ (runFrom 0 initState (canonicalEvents p rx ry n)).2) ∧
    (∀ i : Int,
      Output.getNextWaypointCall i ∈ (runFrom 0 initState (canonicalEvents p rx ry n)).2 →
      ∃ j : Nat, i = (j : Int) ∧ j < n - 1) ∧
    Output.disconnect ∈ (runFrom 0 initState (canonicalEvents p rx ry n)).2 := by
  obtain ⟨s', hrun, -, -⟩ := canonical_run p rx ry n hgx hrx hry hn hn1 hc hd0 hchain
  rw [hrun]
  refine ⟨?_, ?_, ?_⟩
  · intro i hi
    have hm := mem_loopOutputs_of_lt p (n : Int) (n - 1) 0 i (Nat.zero_le i) (by omega)
    constructor
    · exact List.mem_cons_of_mem _ (List.mem_cons_of_mem _ (List.mem_cons_of_mem _
        (List.mem_cons_of_mem _ (List.mem_append_left _ hm.1))))
    · exact List.mem_cons_of_mem _ (List.mem_cons_of_mem _ (List.mem_cons_of_mem _
        (List.mem_cons_of_mem _ (List.mem_append_left _ hm.2))))
  · intro i hmem
    simp only [List.mem_cons, List.mem_append, List.mem_singleton] at hmem
    rcases hmem with h | h | h | h | h | h
    · simp at h
    · simp at h
    · simp at h
    · simp at h
    · obtain ⟨j, -, hj2, hj3⟩ := mem_loopOutputs_shape p (n : Int) (n - 1) 0 _ h
      rcases hj3 with hj3 | hj3
      · obtain hij := Output.getNextWaypointCall.inj hj3
        exact ⟨j, hij, by omega⟩
      · simp at hj3
    · simp at h
  · refine List.mem_cons_of_mem _ (List.mem_cons_of_mem _ (List.mem_cons_of_mem _
      (List.mem_cons_of_mem _ (List.mem_append_right _ ?_))))
    simp

theorem streaming_delivers_all_but_final_witness :
    Output.getNextWaypointCall ((1 : Nat) : Int)
      ∈ (runFrom 0 initState (canonicalEvents cPlanner 0 0 3)).2 :=
  ((streaming_delivers_all_but_final cPlanner 0 0 3 (by decide) (by decide) (by decide)
    (by decide) (by decide) (by decide) (by decide) (by decide)).1 1 (by decide)).1

/-- Claim C2: the waypoint-streaming loop terminates via the completion
check `waypointCounter = numWaypoints − 2`: the complete acknowledged run
disconnects with the counter equal to numWaypoints − 2, `getNextWaypoint`
is never invoked with sequence index numWaypoints − 1, and the last path
cell is never sent as its own discrete waypoint message. -/
theorem completion_check_is_off_by_one (p : Planner) (rx ry : Int) (n : Nat)
    (hgx : 0 ≤ p.goalX) (hrx : 0 ≤ rx) (hry : 0 ≤ ry)
    (hn : p.searchAStar (p.getIndexFromState rx ry) = (n : Int)) (hn1 : 1 ≤ n)
    (hc : ∀ j : Nat, j < n → 0 ≤ (wpCoord p j).1 ∧ 0 ≤ (wpCoord p j).2)
    (hd0 : n ≠ 1 → wpCoord p 0 ≠ (rx, ry))
    (hchain : ∀ j : Nat, j < n - 1 → wpCoord p (j + 1) ≠ wpCoord p j) :
    Output.disconnect ∈ (runFrom 0 initState (canonicalEvents p rx ry n)).2 ∧
    (runFrom 0 initState (canonicalEvents p rx ry n)).1.disconnected = true ∧
    (runFrom 0 initState (canonicalEvents p rx ry n)).1.waypointCounter = (n : Int) - 2 ∧
    Output.getNextWaypointCall ((n : Int) - 1)
      ∉ (runFrom 0 initState (canonicalEvents p rx ry n)).2 ∧
    (∀ a b c d e f : Int, Output.waypointMsg ((n : Int) - 1) a b c d e f
      ∉ (runFrom 0 initState (canonicalEvents p rx ry n)).2) := by
  obtain ⟨s', hrun, hdisc, hcnt⟩ := canonical_run p rx ry n hgx hrx hry hn hn1 hc hd0 hchain
  rw [hrun]
  refine ⟨?_, hdisc, hcnt, ?_, ?_⟩
  · refine List.mem_cons_of_mem _ (List.mem_cons_of_mem _ (List.mem_cons_of_mem _
      (List.mem_cons_of_mem _ (List.mem_append_right _ ?_))))
    simp
  · intro hmem
    simp only [List.mem_cons, List.mem_append, List.mem_singleton] at hmem
    rcases hmem with h | h | h | h | h | h
    · simp at h
    · simp at h
    · simp at h
    · simp at h
    · obtain ⟨j, -, hj2, hj3⟩ := mem_loopOutputs_shape p (n : Int) (n - 1) 0 _ h
      rcases hj3 with hj3 | hj3
      · obtain hij := Output.getNextWaypointCall.inj hj3
        omega
      · simp at hj3
    · simp at h
  · intro a b c d e f hmem
    simp only [List.mem_cons, List.mem_append, List.mem_singleton] at hmem
    rcases hmem with h | h | h | h | h | h
    · simp at h
    · simp at h
    · simp at h
    · simp at h
    · obtain ⟨j, -, hj2, hj3⟩ := mem_loopOutputs_shape p (n : Int) (n - 1) 0 _ h
      rcases hj3 with hj3 | hj3
      · simp at hj3
      · obtain ⟨hij, -⟩ := Output.waypointMsg.inj hj3
        omega
    · simp at h

theorem completion_check_is_off_by_one_witness :
    Output.getNextWaypointCall (((3 : Nat) : Int) - 1)
      ∉ (runFrom 0 initState (canonicalEvents cPlanner 0 0 3)).2 :=
  (completion_check_is_off_by_one cPlanner 0 0 3 (by decide) (by decide) (by decide)
    (by decide) (by decide) (by decide) (by decide) (by decide)).2.2.2.1

end SearchNode
